import Mathlib

/-!
# nanochat_desktop: `nanogpt.c`

A shallow embedding of the launcher stub `src/nanogpt.c` and the properties of
its observable behaviour (text written to standard output, exit status).

The program is a single `main` that makes eight `printf` calls with constant
format strings and returns `0`.  Standard output is modelled as the text
written so far; `printf` with a conversion-free format appends that text.
-/

set_option linter.unusedVariables false

namespace NanoGPT

/-- Persisted settings of a launch: the secret `apiKey`, `none` while it has
never been set. -/
structure Configuration where
  apiKey : Option String
  deriving DecidableEq, Repr

/-- Machine state around one run of the program: the text already written to
standard output, and the surroundings a launch happens in (the version of the
language runtime that is installed, the stored configuration). -/
structure World where
  stdout : String
  runtimeVersion : Nat × Nat
  config : Configuration
  deriving DecidableEq, Repr

/-- Whether a format string has no conversion specification (no `%`). -/
def conversionFree (fmt : String) : Bool :=
  fmt.toList.all (fun c => c != '%')

/-- `printf(fmt)` without further arguments, for a conversion-free format:
the characters of `fmt` are appended to standard output.  The value `printf`
returns is never used by the program and is not modelled. -/
def printf (fmt : String) (w : World) : World :=
  { w with stdout := w.stdout ++ fmt }

/-- `int main(int argc, char *argv[])` of `nanogpt.c`: the final state of the
world and the value returned (the exit status of the process). -/
def main (argc : Int) (argv : List String) (w : World) : World × Int :=
  let w := printf "NanoGPT Chat Desktop Application v1.0.0\n" w
  let w := printf "Usage: ./nanogpt\n" w
  let w := printf "Requirements:\n" w
  let w := printf "  - Python 3.14 or higher\n" w
  let w := printf "  - PyQt6 installed\n" w
  let w := printf "  - nanoapt_chat package compiled\n" w
  let w := printf "  - API key configured via Settings dialog\n" w
  let w := printf "Starting application...\n" w
  (w, 0)

/-- The format strings passed to `printf` by `main`, in call order. -/
def mainFormats : List String :=
  [ "NanoGPT Chat Desktop Application v1.0.0\n",
    "Usage: ./nanogpt\n",
    "Requirements:\n",
    "  - Python 3.14 or higher\n",
    "  - PyQt6 installed\n",
    "  - nanoapt_chat package compiled\n",
    "  - API key configured via Settings dialog\n",
    "Starting application...\n" ]

/-- The text a run of `main` started in `w` writes: what standard output holds
at the end beyond what it held at the start. -/
def printedBy (argc : Int) (argv : List String) (w : World) : String :=
  String.mk ((main argc argv w).1.stdout.toList.drop w.stdout.length)

/-- Split a text at newlines: the newline-terminated lines in order (without
their newline), and the unterminated remainder after the last newline. `cur`
holds the characters of the current line, most recent first. -/
def splitLinesAux : List Char → List Char → List String × String
  | [], cur => ([], String.mk cur.reverse)
  | c :: cs, cur =>
    if c = '\n' then
      ((String.mk cur.reverse) :: (splitLinesAux cs []).1, (splitLinesAux cs []).2)
    else
      splitLinesAux cs (c :: cur)

/-- The newline-terminated lines of a text and its unterminated remainder. -/
def splitLines (text : String) : List String × String :=
  splitLinesAux text.toList []

/-- Whether `needle` occurs in `hay` as a contiguous run of characters. -/
def containsText (needle hay : String) : Bool :=
  hay.toList.tails.any (fun t => needle.toList.isPrefixOf t)

/-- A requirement line is a list item: it starts with `"  - "`. -/
def isRequirementLine (line : String) : Bool :=
  line.toList.take 4 == [' ', ' ', '-', ' ']

/-- The smallest runtime version named by the requirements list
(`Python 3.14 or higher`). -/
def minimumVersion : Nat × Nat := (3, 14)

/-- Version `v` is older than `m` (major first, then minor). -/
def versionBelow (v m : Nat × Nat) : Bool :=
  v.1 < m.1 || (v.1 == m.1 && v.2 < m.2)

/-- The API key of a configuration is unset or empty. -/
def apiKeyMissing (c : Configuration) : Bool :=
  c.apiKey == none || c.apiKey == some ""

/-- A launch on a machine whose runtime (3.13) is older than the minimum; a
key is stored. -/
def oldRuntimeLaunch : World :=
  { stdout := "", runtimeVersion := (3, 13), config := { apiKey := some "sk-1" } }

/-- A first launch: recent runtime, no API key stored yet. -/
def firstLaunch : World :=
  { stdout := "", runtimeVersion := (3, 14), config := { apiKey := none } }

/-- The whole text `main` writes, as one string. -/
def mainText : String :=
  "NanoGPT Chat Desktop Application v1.0.0\nUsage: ./nanogpt\nRequirements:\n  - Python 3.14 or higher\n  - PyQt6 installed\n  - nanoapt_chat package compiled\n  - API key configured via Settings dialog\nStarting application...\n"

/-- The eight lines of `mainText`. -/
def mainLines : List String :=
  [ "NanoGPT Chat Desktop Application v1.0.0",
    "Usage: ./nanogpt",
    "Requirements:",
    "  - Python 3.14 or higher",
    "  - PyQt6 installed",
    "  - nanoapt_chat package compiled",
    "  - API key configured via Settings dialog",
    "Starting application..." ]

/-! ## Basic facts -/

theorem printf_stdout (fmt : String) (w : World) :
    (printf fmt w).stdout = w.stdout ++ fmt := rfl

theorem printf_runtimeVersion (fmt : String) (w : World) :
    (printf fmt w).runtimeVersion = w.runtimeVersion := rfl

theorem printf_config (fmt : String) (w : World) :
    (printf fmt w).config = w.config := rfl

/-- Every format string of `main` is conversion-free, so `printf` writes it
verbatim. -/
theorem mainFormats_conversionFree : mainFormats.all conversionFree = true := by
  decide

theorem mainText_eq : String.join mainFormats = mainText := by
  set_option maxRecDepth 100000 in decide

theorem main_stdout (argc : Int) (argv : List String) (w : World) :
    (main argc argv w).1.stdout = w.stdout ++ mainText := by
  simp only [main, printf_stdout, String.append_assoc]
  rfl

theorem main_exit (argc : Int) (argv : List String) (w : World) :
    (main argc argv w).2 = 0 := rfl

theorem main_runtimeVersion (argc : Int) (argv : List String) (w : World) :
    (main argc argv w).1.runtimeVersion = w.runtimeVersion := rfl

theorem main_config (argc : Int) (argv : List String) (w : World) :
    (main argc argv w).1.config = w.config := rfl

theorem drop_length_append (s t : String) :
    String.mk ((s ++ t).toList.drop s.length) = t := by
  have h : (s ++ t).toList = s.toList ++ t.toList := String.data_append s t
  have hl : s.length = s.toList.length := rfl
  rw [h, hl, List.drop_left]
  rfl

theorem printedBy_eq (argc : Int) (argv : List String) (w : World) :
    printedBy argc argv w = mainText := by
  unfold printedBy
  rw [main_stdout]
  exact drop_length_append w.stdout mainText

theorem splitLines_mainText : splitLines mainText = (mainLines, "") := by
  set_option maxRecDepth 100000 in decide

theorem mainLines_requirements :
    mainLines.filter isRequirementLine =
      [ "  - Python 3.14 or higher",
        "  - PyQt6 installed",
        "  - nanoapt_chat package compiled",
        "  - API key configured via Settings dialog" ] := by
  set_option maxRecDepth 100000 in decide

theorem mainText_no_error_report : containsText "PreconditionUnmet" mainText = false := by
  set_option maxRecDepth 100000 in decide

/-! ## Exit status and arguments -/

/-- C1: for every argument vector `(argc, argv)` (and every state of the
surroundings) `main`, a total function, returns exit code 0. -/
theorem main_returns_zero (argc : Int) (argv : List String) (w : World) :
    (main argc argv w).2 = 0 :=
  main_exit argc argv w

/-- C3: no argument is interpreted: for any two argument vectors, the empty one
included, `main` leaves the same final state, prints the same text and returns
the same exit code. -/
theorem main_ignores_arguments (argc₁ argc₂ : Int) (argv₁ argv₂ : List String)
    (w : World) :
    main argc₁ argv₁ w = main argc₂ argv₂ w ∧
    printedBy argc₁ argv₁ w = printedBy argc₂ argv₂ w ∧
    (main argc₁ argv₁ w).2 = (main argc₂ argv₂ w).2 ∧
    main argc₁ argv₁ w = main 0 [] w :=
  ⟨rfl, rfl, rfl, rfl⟩

/-! ## The printed text -/

/-- C2: for every argument vector the lines `main` prints are, in this order:
the banner line, which is the application name `NanoGPT Chat Desktop
Application` followed by the version `v1.0.0` (and so contains both); the
usage line `Usage: ./nanogpt`; the header `Requirements:`; and the requirement
lines, of which the whole output has exactly four, in the order runtime
version, GUI toolkit, compiled chat package, API key via the Settings dialog
(the status line that closes the output comes after them). -/
theorem main_prints_banner_usage_requirements (argc : Int) (argv : List String)
    (w : World) :
    (splitLines (printedBy argc argv w)).1.take 7 =
      [ "NanoGPT Chat Desktop Application" ++ " " ++ "v1.0.0",
        "Usage: ./nanogpt",
        "Requirements:",
        "  - Python 3.14 or higher",
        "  - PyQt6 installed",
        "  - nanoapt_chat package compiled",
        "  - API key configured via Settings dialog" ] ∧
    (∀ banner ∈ (splitLines (printedBy argc argv w)).1.head?,
      containsText "NanoGPT Chat Desktop Application" banner = true ∧
      containsText "v1.0.0" banner = true) ∧
    (splitLines (printedBy argc argv w)).1.filter isRequirementLine =
      [ "  - Python 3.14 or higher",
        "  - PyQt6 installed",
        "  - nanoapt_chat package compiled",
        "  - API key configured via Settings dialog" ] ∧
    ((splitLines (printedBy argc argv w)).1.filter isRequirementLine).length = 4 ∧
    (splitLines (printedBy argc argv w)).1.drop 7 = ["Starting application..."] := by
  rw [printedBy_eq, splitLines_mainText]
  refine ⟨?_, ?_, ?_, ?_, ?_⟩
  · set_option maxRecDepth 100000 in decide
  · intro banner hb
    have hb2 : banner = "NanoGPT Chat Desktop Application v1.0.0" := by
      simpa [mainLines] using hb.symm
    subst hb2
    constructor
    · set_option maxRecDepth 100000 in decide
    · set_option maxRecDepth 100000 in decide
  · exact mainLines_requirements
  · rw [mainLines_requirements]; rfl
  · rfl

/-- C7: for every argument vector (and whatever the runtime version and the
stored configuration) the complete output of `main` is exactly eight
newline-terminated lines with nothing after them, the eighth and last being
`Starting application...`; that line is the final `printf`, made on the state
reached by the seven before it, and the value returned right after it is 0. -/
theorem main_output_eight_lines (argc : Int) (argv : List String) (w : World) :
    splitLines (printedBy argc argv w) =
      ([ "NanoGPT Chat Desktop Application v1.0.0",
         "Usage: ./nanogpt",
         "Requirements:",
         "  - Python 3.14 or higher",
         "  - PyQt6 installed",
         "  - nanoapt_chat package compiled",
         "  - API key configured via Settings dialog",
         "Starting application..." ], "") ∧
    (splitLines (printedBy argc argv w)).1.length = 8 ∧
    (splitLines (printedBy argc argv w)).1.getLast? = some "Starting application..." ∧
    main argc argv w =
      (printf "Starting application...\n"
        (printf "  - API key configured via Settings dialog\n"
          (printf "  - nanoapt_chat package compiled\n"
            (printf "  - PyQt6 installed\n"
              (printf "  - Python 3.14 or higher\n"
                (printf "Requirements:\n"
                  (printf "Usage: ./nanogpt\n"
                    (printf "NanoGPT Chat Desktop Application v1.0.0\n" w))))))), 0) ∧
    (∀ (v : Nat × Nat) (c : Configuration),
      printedBy argc argv { w with runtimeVersion := v, config := c } =
        printedBy argc argv w) := by
  refine ⟨?_, ?_, ?_, rfl, ?_⟩
  · rw [printedBy_eq, splitLines_mainText]; rfl
  · rw [printedBy_eq, splitLines_mainText]; rfl
  · rw [printedBy_eq, splitLines_mainText]; rfl
  · intro v c
    rw [printedBy_eq, printedBy_eq]

/-! ## Launch conditions -/

/-- C4 (as the code has it): `main` makes no version check. On a launch whose
runtime version is below the minimum it still returns exit code 0 and prints
its fixed text, with no `PreconditionUnmet` report in it; the configuration is
not loaded: it is left as stored and nothing printed or returned depends on
it. -/
theorem main_below_minimum_still_zero (argc : Int) (argv : List String) (w : World)
    (h : versionBelow w.runtimeVersion minimumVersion = true) :
    (main argc argv w).2 = 0 ∧
    containsText "PreconditionUnmet" (printedBy argc argv w) = false ∧
    (∀ v : Nat × Nat, printedBy argc argv { w with runtimeVersion := v } =
      printedBy argc argv w) ∧
    (main argc argv w).1.config = w.config ∧
    (∀ c : Configuration,
      printedBy argc argv { w with config := c } = printedBy argc argv w ∧
      (main argc argv { w with config := c }).2 = (main argc argv w).2) := by
  refine ⟨rfl, ?_, ?_, rfl, ?_⟩
  · rw [printedBy_eq]; exact mainText_no_error_report
  · intro v; rw [printedBy_eq, printedBy_eq]
  · intro c; exact ⟨by rw [printedBy_eq, printedBy_eq], rfl⟩

/-- C4, witness: the launch `oldRuntimeLaunch` (runtime 3.13) is below the
minimum and `main` returns 0 on it. -/
theorem main_below_minimum_still_zero_witness :
    versionBelow oldRuntimeLaunch.runtimeVersion minimumVersion = true ∧
    (main 1 ["./nanogpt"] oldRuntimeLaunch).2 = 0 :=
  ⟨by decide,
   (main_below_minimum_still_zero 1 ["./nanogpt"] oldRuntimeLaunch (by decide)).1⟩

/-- C4, counterexample: with runtime 3.13, below the minimum 3.14, the exit
code of `main` is not different from 0, and nothing like `PreconditionUnmet`
is printed. -/
theorem below_minimum_exit_code_is_zero :
    versionBelow oldRuntimeLaunch.runtimeVersion minimumVersion = true ∧
    ¬ ((main 1 ["./nanogpt"] oldRuntimeLaunch).2 ≠ 0) ∧
    containsText "PreconditionUnmet" (printedBy 1 ["./nanogpt"] oldRuntimeLaunch) = false := by
  refine ⟨by decide, fun h => h rfl, ?_⟩
  rw [printedBy_eq]; exact mainText_no_error_report

/-- C5 (as the code has it): `main` has no API-key handling. On a launch whose
stored `apiKey` is unset or empty it still prints `Starting application...`
as its last line and returns 0, and the stored key is as missing afterwards as
before: the key requirement is only one of the printed list items. -/
theorem main_starts_without_key (argc : Int) (argv : List String) (w : World)
    (h : apiKeyMissing w.config = true) :
    "Starting application..." ∈ (splitLines (printedBy argc argv w)).1 ∧
    (splitLines (printedBy argc argv w)).1.getLast? = some "Starting application..." ∧
    (main argc argv w).2 = 0 ∧
    (main argc argv w).1.config = w.config ∧
    apiKeyMissing (main argc argv w).1.config = true ∧
    "  - API key configured via Settings dialog" ∈ (splitLines (printedBy argc argv w)).1 := by
  rw [printedBy_eq, splitLines_mainText]
  refine ⟨?_, rfl, rfl, rfl, ?_, ?_⟩
  · simp [mainLines]
  · rw [main_config]; exact h
  · simp [mainLines]

/-- C5, witness: `firstLaunch` has no key stored, and `main` prints the
starting line on it. -/
theorem main_starts_without_key_witness :
    apiKeyMissing firstLaunch.config = true ∧
    "Starting application..." ∈ (splitLines (printedBy 1 ["./nanogpt"] firstLaunch)).1 :=
  ⟨by decide, (main_starts_without_key 1 ["./nanogpt"] firstLaunch (by decide)).1⟩

/-- C5, counterexample: on `firstLaunch`, where no key is stored, `main`
reaches the starting step (the line is printed) although the key is still
missing when it returns. -/
theorem starts_with_key_missing :
    apiKeyMissing firstLaunch.config = true ∧
    "Starting application..." ∈ (splitLines (printedBy 1 ["./nanogpt"] firstLaunch)).1 ∧
    apiKeyMissing (main 1 ["./nanogpt"] firstLaunch).1.config = true := by
  refine ⟨by decide, ?_, by decide⟩
  rw [printedBy_eq, splitLines_mainText]
  simp [mainLines]

/-- C6: the stored API key has no influence on what is printed: two launches
that differ only in the stored key (any two values, unset included) print the
same text, leave the same standard output and return the same exit code. -/
theorem main_output_independent_of_key (argc : Int) (argv : List String)
    (w : World) (k₁ k₂ : Option String) :
    printedBy argc argv { w with config := { apiKey := k₁ } } =
      printedBy argc argv { w with config := { apiKey := k₂ } } ∧
    (main argc argv { w with config := { apiKey := k₁ } }).1.stdout =
      (main argc argv { w with config := { apiKey := k₂ } }).1.stdout ∧
    (main argc argv { w with config := { apiKey := k₁ } }).2 =
      (main argc argv { w with config := { apiKey := k₂ } }).2 := by
  refine ⟨?_, rfl, rfl⟩
  rw [printedBy_eq, printedBy_eq]

end NanoGPT
